import Mathlib

/-!
Shallow embedding of the hafaloha-web client's cart/checkout/admin state
logic (cartStore.ts, CheckoutPage, AdminImportPage, admin products page).

Asynchronous operations are modelled as pure state-transition functions:
each takes the prior state plus the server's response(s) for the requests
the operation issues, and returns the new state, the list of HTTP requests
issued (in order), and the promise outcome (resolved or rejected with the
propagated error).
-/

namespace Hafaloha

/-- Server-owned cart aggregate as cached locally (only the fields the
store reads: `item_count` and `subtotal_cents`). -/
structure Cart where
  item_count : Nat
  subtotal_cents : Nat
  deriving Repr, DecidableEq

/-- The zustand cart store state: `cart`, `isLoading`, `isOpen`, `sessionId`. -/
structure CartState where
  cart : Option Cart
  isLoading : Bool
  isOpen : Bool
  sessionId : Option String
  deriving Repr, DecidableEq

/-- An HTTP request issued by the client, identified by verb and path. -/
inductive Request where
  | get (path : String)
  | post (path : String)
  | put (path : String)
  | del (path : String)
  deriving Repr, DecidableEq

/-- Outcome of an async operation: the returned promise resolves, or
rejects with the (re-thrown) error. -/
inductive Outcome where
  | resolved
  | rejected (e : String)
  deriving Repr, DecidableEq

/-- `fetchCart`: sets `isLoading`, issues GET /cart; on success stores the
response as the cart and clears `isLoading`; on failure only logs and
clears `isLoading` (the error is swallowed, never re-thrown). -/
def fetchCart (s : CartState) (resp : Except String Cart) :
    CartState × List Request :=
  let s1 := { s with isLoading := true }
  match resp with
  | Except.ok cart => ({ s1 with cart := some cart, isLoading := false }, [Request.get "/cart"])
  | Except.error _ => ({ s1 with isLoading := false }, [Request.get "/cart"])

/-- `addItem`: sets `isLoading`, issues POST /cart/items; on success awaits
`fetchCart` (whose own failure is swallowed inside `fetchCart`), then
clears `isLoading` and opens the cart drawer; on POST failure clears
`isLoading`, alerts, and re-throws. -/
def addItem (s : CartState) (postResp : Except String Unit)
    (fetchResp : Except String Cart) : CartState × List Request × Outcome :=
  let s1 := { s with isLoading := true }
  match postResp with
  | Except.error e =>
      ({ s1 with isLoading := false }, [Request.post "/cart/items"], Outcome.rejected e)
  | Except.ok _ =>
      let r := fetchCart s1 fetchResp
      ({ r.1 with isLoading := false, isOpen := true },
       Request.post "/cart/items" :: r.2, Outcome.resolved)

/-- `updateQuantity`: sets `isLoading`, issues PUT /cart/items/:id; on
success awaits `fetchCart` then clears `isLoading`; on PUT failure clears
`isLoading`, alerts, and re-throws. -/
def updateQuantity (s : CartState) (cartItemId : Nat)
    (putResp : Except String Unit) (fetchResp : Except String Cart) :
    CartState × List Request × Outcome :=
  let path := "/cart/items/" ++ toString cartItemId
  let s1 := { s with isLoading := true }
  match putResp with
  | Except.error e =>
      ({ s1 with isLoading := false }, [Request.put path], Outcome.rejected e)
  | Except.ok _ =>
      let r := fetchCart s1 fetchResp
      ({ r.1 with isLoading := false }, Request.put path :: r.2, Outcome.resolved)

/-- `removeItem`: sets `isLoading`, issues DELETE /cart/items/:id; on
success awaits `fetchCart` then clears `isLoading`; on DELETE failure
clears `isLoading` and re-throws. -/
def removeItem (s : CartState) (cartItemId : Nat)
    (delResp : Except String Unit) (fetchResp : Except String Cart) :
    CartState × List Request × Outcome :=
  let path := "/cart/items/" ++ toString cartItemId
  let s1 := { s with isLoading := true }
  match delResp with
  | Except.error e =>
      ({ s1 with isLoading := false }, [Request.del path], Outcome.rejected e)
  | Except.ok _ =>
      let r := fetchCart s1 fetchResp
      ({ r.1 with isLoading := false }, Request.del path :: r.2, Outcome.resolved)

/-- `clearCart`: sets `isLoading`, issues DELETE /cart; on success sets the
local cart to null and clears `isLoading` directly (no re-fetch); on
failure clears `isLoading` and re-throws. -/
def clearCart (s : CartState) (delResp : Except String Unit) :
    CartState × List Request × Outcome :=
  let s1 := { s with isLoading := true }
  match delResp with
  | Except.error e =>
      ({ s1 with isLoading := false }, [Request.del "/cart"], Outcome.rejected e)
  | Except.ok _ =>
      ({ s1 with cart := none, isLoading := false }, [Request.del "/cart"], Outcome.resolved)

/-- Computed `itemCount`: `cart?.item_count || 0`. -/
def itemCount (s : CartState) : Nat :=
  match s.cart with
  | some c => c.item_count
  | none => 0

/-- Computed `subtotal` in dollars: `(cart?.subtotal_cents || 0) / 100`. -/
def subtotal (s : CartState) : ℚ :=
  (match s.cart with
   | some c => (c.subtotal_cents : ℚ)
   | none => 0) / 100

/-- localStorage, modelled as a partial map from keys to stored strings. -/
def Storage := String → Option String

/-- `localStorage.getItem`. -/
def Storage.read (st : Storage) (k : String) : Option String := st k

/-- `localStorage.setItem`. -/
def Storage.write (st : Storage) (k v : String) : Storage :=
  fun k2 => if k2 = k then some v else st k2

/-- `getSessionId`: reads `cart_session_id` from storage; if absent,
generates a fresh UUID (passed in as `freshUUID`), persists it, and
returns it; otherwise returns the stored identifier unchanged. -/
def getSessionId (st : Storage) (freshUUID : String) : String × Storage :=
  match st.read "cart_session_id" with
  | some sessionId => (sessionId, st)
  | none => (freshUUID, st.write "cart_session_id" freshUUID)

/-- Checkout shipping address (CheckoutPage local state; `street2` and
`country` are initialized to concrete strings there). -/
structure ShippingAddress where
  name : String
  street1 : String
  street2 : String
  city : String
  state : String
  zip : String
  country : String
  deriving Repr, DecidableEq

/-- A shipping rate option returned by the rate-quote API. -/
structure ShippingMethod where
  carrier : String
  service : String
  rate_cents : Nat
  delivery_days : Option Nat
  deriving Repr, DecidableEq

/-- The checkout delivery-method choice. -/
inductive DeliveryMethod where
  | pickup
  | shipping
  deriving Repr, DecidableEq

/-- JavaScript `a || b` on an optional string: `b` when `a` is
null/undefined or the empty string (falsy), else the string in `a`. -/
def jsOrStr (a : Option String) (b : String) : String :=
  match a with
  | some s => if s = "" then b else s
  | none => b

/-- `isFormValid` from CheckoutPage: contact info (name, email, phone,
trimmed) always required; for pickup that is all; for shipping also
requires trimmed street1/city/state/zip non-empty and a selected
`shippingMethod` (not null). -/
def isFormValid (nm email phone : String) (deliveryMethod : DeliveryMethod)
    (shippingAddress : ShippingAddress) (shippingMethod : Option ShippingMethod) :
    Bool :=
  let hasContactInfo := nm.trim != "" && email.trim != "" && phone.trim != ""
  if deliveryMethod = DeliveryMethod.pickup then
    hasContactInfo
  else
    let hasAddress :=
      shippingAddress.street1.trim != "" &&
      shippingAddress.city.trim != "" &&
      shippingAddress.state.trim != "" &&
      shippingAddress.zip.trim != ""
    hasContactInfo && hasAddress && shippingMethod.isSome

/-- The slice of CheckoutPage state touched by `handleCalculateShipping`. -/
structure CheckoutState where
  name : String
  shippingAddress : ShippingAddress
  shippingMethod : Option ShippingMethod
  availableShippingRates : List ShippingMethod
  calculatingShipping : Bool
  shippingError : Option String
  deriving Repr, DecidableEq

/-- `handleCalculateShipping`: if street1, city, state or zip is empty
(JS-falsy), set a validation error and return without any request;
otherwise clear the error, issue the rate request; on success replace
`availableShippingRates` and auto-select the first rate when the list is
non-empty; on failure set the server error (or a fallback). -/
def handleCalculateShipping (s : CheckoutState)
    (ratesResp : Except (Option String) (List ShippingMethod)) :
    CheckoutState × List Request :=
  if s.shippingAddress.street1 = "" ∨ s.shippingAddress.city = "" ∨
      s.shippingAddress.state = "" ∨ s.shippingAddress.zip = "" then
    ({ s with shippingError := some "Please fill out all required shipping address fields" }, [])
  else
    let s1 := { s with calculatingShipping := true, shippingError := none }
    match ratesResp with
    | Except.ok rates =>
        let s2 := { s1 with availableShippingRates := rates }
        let s3 :=
          match rates with
          | r :: _ => { s2 with shippingMethod := some r }
          | [] => s2
        ({ s3 with calculatingShipping := false }, [Request.post "/shipping/rates"])
    | Except.error e =>
        ({ s1 with
            shippingError := some (jsOrStr e "Failed to calculate shipping. Please try again."),
            calculatingShipping := false },
         [Request.post "/shipping/rates"])

/-- One issue reported by the cart-validation error payload. -/
structure ValidationIssue where
  message : String
  deriving Repr, DecidableEq

/-- The `err.response?.data` payload inspected by the checkout catch
block: optional `error` string and optional `issues` list. -/
structure ErrorResponseData where
  error : Option String
  issues : Option (List ValidationIssue)
  deriving Repr, DecidableEq

/-- The error message set by `handleSubmit`'s catch block: when `error`
is exactly "Cart validation failed" and `issues` is present (truthy),
a header line followed by one "• "-bulleted line per issue joined with
newlines; otherwise the server error string or a generic fallback. -/
def checkoutErrorMessage (data : ErrorResponseData) : String :=
  if data.error = some "Cart validation failed" ∧ data.issues.isSome then
    let issues := data.issues.getD []
    "Unable to complete order:\n" ++
      String.intercalate "\n" (issues.map (fun issue => "• " ++ issue.message))
  else
    jsOrStr data.error "An error occurred. Please try again."

/-- Import job status values. -/
inductive ImportStatus where
  | pending
  | processing
  | completed
  | failed
  deriving Repr, DecidableEq

/-- An import job as tracked by AdminImportPage (fields the polling
logic reads). -/
structure ImportJob where
  id : Nat
  status : ImportStatus
  deriving Repr, DecidableEq

/-- The slice of AdminImportPage state driving the polling effect. -/
structure ImportPageState where
  currentImport : Option ImportJob
  imports : List ImportJob
  deriving Repr, DecidableEq

/-- The polling effect's guard: an interval issuing status requests is
installed iff there is a current import whose status is pending or
processing (otherwise the effect returns early and no timer exists). -/
def pollingActive (s : ImportPageState) : Bool :=
  match s.currentImport with
  | none => false
  | some j => j.status == ImportStatus.pending || j.status == ImportStatus.processing

/-- `fetchImportStatus`: stores the fetched job as `currentImport`,
patches it into the list, and if its status is completed or failed,
clears `currentImport` (tearing down the interval) and refreshes the
job list. Returns the new state and how many list refreshes
(`fetchImports` calls) were performed. -/
def fetchImportStatus (s : ImportPageState) (importId : Nat)
    (importData : ImportJob) : ImportPageState × Nat :=
  let s1 : ImportPageState :=
    { currentImport := some importData,
      imports := s.imports.map (fun imp => if imp.id = importId then importData else imp) }
  if importData.status = ImportStatus.completed ∨ importData.status = ImportStatus.failed then
    ({ s1 with currentImport := none }, 1)
  else
    (s1, 0)

/-- A product variant as displayed by the admin products page. -/
structure ProductVariant where
  id : Nat
  size : String
  color : String
  variant_name : String
  display_name : String
  sku : String
  price_cents : Nat
  stock_quantity : Int
  available : Bool
  actually_available : Bool
  low_stock : Bool
  deriving Repr, DecidableEq

/-- The label/styling pair returned by `getVariantStatus`. -/
structure VariantStatus where
  label : String
  className : String
  deriving Repr, DecidableEq

/-- `getVariantStatus` from the admin products page: uses the computed
`actually_available` field; when unavailable, distinguishes
"Out of Stock" (variant-level tracking with stock_quantity ≤ 0) from
"Disabled"; when available, "Available". -/
def getVariantStatus (variant : ProductVariant) (inventoryLevel : String) :
    VariantStatus :=
  if !variant.actually_available then
    if inventoryLevel = "variant" ∧ variant.stock_quantity ≤ 0 then
      { label := "Out of Stock", className := "bg-red-100 text-red-800" }
    else
      { label := "Disabled", className := "bg-gray-100 text-gray-800" }
  else
    { label := "Available", className := "bg-green-100 text-green-800" }

/-! Theorems -/

/-- C1: the checkout form-validity predicate returns true for pickup iff
name, email, phone are non-blank after trimming; for shipping iff
additionally street1, city, state, zip are non-blank and a shipping rate
is selected. Country and street2 never occur in the condition. -/
theorem checkout_form_validity (nm email phone : String)
    (addr : ShippingAddress) (sm : Option ShippingMethod) :
    (isFormValid nm email phone DeliveryMethod.pickup addr sm = true ↔
      (nm.trim ≠ "" ∧ email.trim ≠ "" ∧ phone.trim ≠ "")) ∧
    (isFormValid nm email phone DeliveryMethod.shipping addr sm = true ↔
      ((nm.trim ≠ "" ∧ email.trim ≠ "" ∧ phone.trim ≠ "") ∧
       (addr.street1.trim ≠ "" ∧ addr.city.trim ≠ "" ∧
        addr.state.trim ≠ "" ∧ addr.zip.trim ≠ "") ∧
       sm ≠ none)) := by
  constructor <;>
    simp [isFormValid, Option.isSome_iff_ne_none, bne_iff_ne, and_assoc]

/-- C2: a successful clearCart leaves the local cart empty (itemCount and
subtotal read 0), issues exactly one DELETE request and no re-fetch, and
resolves. -/
theorem clearCart_empties_locally (s : CartState) :
    (clearCart s (Except.ok ())).1.cart = none ∧
    itemCount (clearCart s (Except.ok ())).1 = 0 ∧
    subtotal (clearCart s (Except.ok ())).1 = 0 ∧
    (clearCart s (Except.ok ())).2.1 = [Request.del "/cart"] ∧
    (clearCart s (Except.ok ())).2.2 = Outcome.resolved := by
  refine ⟨rfl, rfl, ?_, rfl, rfl⟩
  simp [clearCart, subtotal]

/-- C3: every mutating cart operation whose server request fails clears
the loading flag, rejects with the same error (re-throw), and issues
exactly one request (no retry). -/
theorem cart_mutation_failure (s : CartState) (e : String)
    (fetchResp : Except String Cart) (cartItemId : Nat) :
    ((addItem s (Except.error e) fetchResp).1.isLoading = false ∧
     (addItem s (Except.error e) fetchResp).2.2 = Outcome.rejected e ∧
     (addItem s (Except.error e) fetchResp).2.1 = [Request.post "/cart/items"]) ∧
    ((updateQuantity s cartItemId (Except.error e) fetchResp).1.isLoading = false ∧
     (updateQuantity s cartItemId (Except.error e) fetchResp).2.2 = Outcome.rejected e ∧
     (updateQuantity s cartItemId (Except.error e) fetchResp).2.1 =
       [Request.put ("/cart/items/" ++ toString cartItemId)]) ∧
    ((removeItem s cartItemId (Except.error e) fetchResp).1.isLoading = false ∧
     (removeItem s cartItemId (Except.error e) fetchResp).2.2 = Outcome.rejected e ∧
     (removeItem s cartItemId (Except.error e) fetchResp).2.1 =
       [Request.del ("/cart/items/" ++ toString cartItemId)]) ∧
    ((clearCart s (Except.error e)).1.isLoading = false ∧
     (clearCart s (Except.error e)).2.2 = Outcome.rejected e ∧
     (clearCart s (Except.error e)).2.1 = [Request.del "/cart"]) :=
  ⟨⟨rfl, rfl, rfl⟩, ⟨rfl, rfl, rfl⟩, ⟨rfl, rfl, rfl⟩, rfl, rfl, rfl⟩

/-- C6: when fetchCart's request fails, the cached cart, the panel-open
flag, and the session identifier are unchanged, and the loading flag is
cleared. -/
theorem fetchCart_failure_frame (s : CartState) (e : String) :
    (fetchCart s (Except.error e)).1.cart = s.cart ∧
    (fetchCart s (Except.error e)).1.isOpen = s.isOpen ∧
    (fetchCart s (Except.error e)).1.sessionId = s.sessionId ∧
    (fetchCart s (Except.error e)).1.isLoading = false :=
  ⟨rfl, rfl, rfl, rfl⟩

/-- C10: if the add-item POST succeeds but the subsequent cart re-fetch
fails, addItem still resolves, opens the cart panel, clears the loading
flag, and leaves the displayed cart as the stale pre-add snapshot. -/
theorem addItem_refetch_failure_swallowed (s : CartState) (e : String) :
    (addItem s (Except.ok ()) (Except.error e)).2.2 = Outcome.resolved ∧
    (addItem s (Except.ok ()) (Except.error e)).1.cart = s.cart ∧
    (addItem s (Except.ok ()) (Except.error e)).1.isOpen = true ∧
    (addItem s (Except.ok ()) (Except.error e)).1.isLoading = false :=
  ⟨rfl, rfl, rfl, rfl⟩

/-- C4: handleCalculateShipping with a missing required address field
sets the validation error and issues no request; with all required
fields filled, a successful response replaces the offered-rates list
and auto-selects the first returned rate when the list is non-empty. -/
theorem calculate_shipping_rates (s : CheckoutState)
    (resp : Except (Option String) (List ShippingMethod))
    (r : ShippingMethod) (rest : List ShippingMethod) :
    ((s.shippingAddress.street1 = "" ∨ s.shippingAddress.city = "" ∨
      s.shippingAddress.state = "" ∨ s.shippingAddress.zip = "") →
      (handleCalculateShipping s resp).2 = [] ∧
      (handleCalculateShipping s resp).1.shippingError =
        some "Please fill out all required shipping address fields") ∧
    ((s.shippingAddress.street1 ≠ "" ∧ s.shippingAddress.city ≠ "" ∧
      s.shippingAddress.state ≠ "" ∧ s.shippingAddress.zip ≠ "") →
      (∀ rates : List ShippingMethod,
        (handleCalculateShipping s (Except.ok rates)).1.availableShippingRates = rates) ∧
      (handleCalculateShipping s (Except.ok (r :: rest))).1.shippingMethod = some r) := by
  constructor
  · intro h
    unfold handleCalculateShipping
    rw [if_pos h]
    exact ⟨rfl, rfl⟩
  · intro h
    have hc : ¬(s.shippingAddress.street1 = "" ∨ s.shippingAddress.city = "" ∨
        s.shippingAddress.state = "" ∨ s.shippingAddress.zip = "") := by
      push_neg
      exact h
    refine ⟨fun rates => ?_, ?_⟩
    · unfold handleCalculateShipping
      rw [if_neg hc]
      cases rates <;> rfl
    · unfold handleCalculateShipping
      rw [if_neg hc]

/-- Concrete inputs used by witness theorems. -/
def sampleAddrEmpty : ShippingAddress :=
  { name := "", street1 := "", street2 := "", city := "", state := "",
    zip := "", country := "US" }

def sampleAddrFull : ShippingAddress :=
  { name := "A", street1 := "123 Main St", street2 := "", city := "Hagatna",
    state := "GU", zip := "96910", country := "US" }

def sampleRate : ShippingMethod :=
  { carrier := "USPS", service := "Priority", rate_cents := 1295,
    delivery_days := some 3 }

def sampleCheckoutEmpty : CheckoutState :=
  { name := "A", shippingAddress := sampleAddrEmpty, shippingMethod := none,
    availableShippingRates := [], calculatingShipping := false,
    shippingError := none }

def sampleCheckoutFull : CheckoutState :=
  { name := "A", shippingAddress := sampleAddrFull, shippingMethod := none,
    availableShippingRates := [], calculatingShipping := false,
    shippingError := none }

/-- Witness for C4 at concrete inputs: an empty address blocks with a
validation error and no request; a full address with one returned rate
replaces the list and auto-selects that rate. -/
theorem calculate_shipping_rates_witness :
    ((handleCalculateShipping sampleCheckoutEmpty (Except.ok [sampleRate])).2 = [] ∧
     (handleCalculateShipping sampleCheckoutEmpty (Except.ok [sampleRate])).1.shippingError =
       some "Please fill out all required shipping address fields") ∧
    ((handleCalculateShipping sampleCheckoutFull
        (Except.ok [sampleRate])).1.availableShippingRates = [sampleRate] ∧
     (handleCalculateShipping sampleCheckoutFull
        (Except.ok [sampleRate])).1.shippingMethod = some sampleRate) := by
  have h1 := (calculate_shipping_rates sampleCheckoutEmpty (Except.ok [sampleRate])
      sampleRate []).1 (Or.inl rfl)
  have h2 := (calculate_shipping_rates sampleCheckoutFull (Except.ok [sampleRate])
      sampleRate []).2 (by refine ⟨?_, ?_, ?_, ?_⟩ <;> decide)
  exact ⟨h1, h2.1 [sampleRate], h2.2⟩

/-- C5: when the submission failure carries error "Cart validation
failed" and an issues list of length n, the message is the header line
followed by the n bulleted lines "• " + message joined by newlines, in
order; any other failure yields the single server-provided error
string, or the generic fallback when absent. -/
theorem checkout_validation_error_rendering (data : ErrorResponseData)
    (l : List ValidationIssue)
    (he : data.error = some "Cart validation failed")
    (hi : data.issues = some l) :
    (checkoutErrorMessage data =
      "Unable to complete order:\n" ++
        String.intercalate "\n" (l.map (fun issue => "• " ++ issue.message)) ∧
     (l.map (fun issue => "• " ++ issue.message)).length = l.length ∧
     ∀ (i : Nat) (h : i < l.length),
       (l.map (fun issue => "• " ++ issue.message)).get
           ⟨i, by simpa using h⟩ = "• " ++ (l.get ⟨i, h⟩).message) ∧
    (∀ (d : ErrorResponseData) (msg : String),
      ¬(d.error = some "Cart validation failed" ∧ d.issues.isSome) →
      d.error = some msg → msg ≠ "" → checkoutErrorMessage d = msg) ∧
    (∀ d : ErrorResponseData, d.error = none →
      checkoutErrorMessage d = "An error occurred. Please try again.") := by
  refine ⟨⟨?_, by simp, ?_⟩, ?_, ?_⟩
  · unfold checkoutErrorMessage
    rw [if_pos ⟨he, by rw [hi]; rfl⟩, hi]
    rfl
  · intro i h
    simp [List.get_eq_getElem]
  · intro d msg hnot hmsg hne
    unfold checkoutErrorMessage
    rw [if_neg hnot, hmsg]
    simp [jsOrStr, hne]
  · intro d hnone
    unfold checkoutErrorMessage
    rw [if_neg (by rw [hnone]; simp), hnone]
    rfl

def sampleErrData : ErrorResponseData :=
  { error := some "Cart validation failed",
    issues := some [{ message := "Item X is out of stock" },
                    { message := "Price changed" }] }

/-- Witness for C5 at a concrete two-issue payload: the rendered message
has the header and exactly two bulleted lines in order; a generic
failure renders its single server message. -/
theorem checkout_validation_error_rendering_witness :
    checkoutErrorMessage sampleErrData =
      "Unable to complete order:\n• Item X is out of stock\n• Price changed" ∧
    checkoutErrorMessage { error := some "boom", issues := none } = "boom" := by
  have h := checkout_validation_error_rendering sampleErrData
      [{ message := "Item X is out of stock" }, { message := "Price changed" }]
      rfl rfl
  refine ⟨?_, ?_⟩
  · rw [h.1.1]
    rfl
  · exact h.2.1 { error := some "boom", issues := none } "boom"
      (by simp) rfl (by decide)

/-- C7: the polling interval exists iff the watched job is pending or
processing; a status response with a terminal status clears the watched
job (so polling stops) and refreshes the list exactly once, while a
non-terminal response keeps polling and performs no refresh. -/
theorem import_polling_terminal (s : ImportPageState) (importId : Nat)
    (importData : ImportJob) :
    (pollingActive s = true ↔
      ∃ j, s.currentImport = some j ∧
        (j.status = ImportStatus.pending ∨ j.status = ImportStatus.processing)) ∧
    ((importData.status = ImportStatus.completed ∨
      importData.status = ImportStatus.failed) →
      (fetchImportStatus s importId importData).1.currentImport = none ∧
      pollingActive (fetchImportStatus s importId importData).1 = false ∧
      (fetchImportStatus s importId importData).2 = 1) ∧
    ((importData.status = ImportStatus.pending ∨
      importData.status = ImportStatus.processing) →
      (fetchImportStatus s importId importData).1.currentImport = some importData ∧
      pollingActive (fetchImportStatus s importId importData).1 = true ∧
      (fetchImportStatus s importId importData).2 = 0) := by
  refine ⟨?_, ?_, ?_⟩
  · cases hs : s.currentImport with
    | none => simp [pollingActive, hs]
    | some j => simp [pollingActive, hs]
  · intro h
    unfold fetchImportStatus
    rw [if_pos h]
    exact ⟨rfl, rfl, rfl⟩
  · intro h
    have hc : ¬(importData.status = ImportStatus.completed ∨
        importData.status = ImportStatus.failed) := by
      rcases h with h | h <;> rw [h] <;> decide
    unfold fetchImportStatus
    rw [if_neg hc]
    refine ⟨rfl, ?_, rfl⟩
    rcases h with h | h <;> simp [pollingActive, h]

def sampleJobProcessing : ImportJob := { id := 7, status := ImportStatus.processing }

def sampleJobDone : ImportJob := { id := 7, status := ImportStatus.completed }

def sampleImportState : ImportPageState :=
  { currentImport := some sampleJobProcessing, imports := [sampleJobProcessing] }

/-- Witness for C7 at a concrete state: polling is active while the job
is processing; a completed response clears the watched job, stops
polling, and refreshes the list once. -/
theorem import_polling_terminal_witness :
    pollingActive sampleImportState = true ∧
    (fetchImportStatus sampleImportState 7 sampleJobDone).1.currentImport = none ∧
    pollingActive (fetchImportStatus sampleImportState 7 sampleJobDone).1 = false ∧
    (fetchImportStatus sampleImportState 7 sampleJobDone).2 = 1 := by
  have h := import_polling_terminal sampleImportState 7 sampleJobDone
  have h1 := h.1.mpr ⟨sampleJobProcessing, rfl, Or.inr rfl⟩
  have h2 := h.2.1 (Or.inl rfl)
  exact ⟨h1, h2.1, h2.2.1, h2.2.2⟩

/-- C8: with no stored identifier, getSessionId returns the freshly
generated identifier and persists it; a subsequent call on the updated
storage returns that same identifier (regardless of the fresh value it
could have generated) and leaves storage unchanged. -/
theorem getSessionId_idempotent (st : Storage) (fresh1 fresh2 : String)
    (h : st.read "cart_session_id" = none) :
    (getSessionId st fresh1).1 = fresh1 ∧
    ((getSessionId st fresh1).2).read "cart_session_id" = some fresh1 ∧
    (getSessionId (getSessionId st fresh1).2 fresh2).1 = (getSessionId st fresh1).1 ∧
    (getSessionId (getSessionId st fresh1).2 fresh2).2 = (getSessionId st fresh1).2 := by
  have hw : (st.write "cart_session_id" fresh1).read "cart_session_id" = some fresh1 := by
    simp [Storage.read, Storage.write]
  refine ⟨?_, ?_, ?_, ?_⟩ <;>
    simp [getSessionId, h, hw]

/-- Witness for C8 on the empty storage: the first call returns and
persists "uuid-1"; the second call returns "uuid-1" even though it could
have generated "uuid-2", and leaves storage unchanged. -/
theorem getSessionId_idempotent_witness :
    Storage.read (fun _ => none) "cart_session_id" = none ∧
    ((getSessionId (fun _ => none) "uuid-1").1 = "uuid-1" ∧
     ((getSessionId (fun _ => none) "uuid-1").2).read "cart_session_id" = some "uuid-1" ∧
     (getSessionId (getSessionId (fun _ => none) "uuid-1").2 "uuid-2").1 =
       (getSessionId (fun _ => none) "uuid-1").1 ∧
     (getSessionId (getSessionId (fun _ => none) "uuid-1").2 "uuid-2").2 =
       (getSessionId (fun _ => none) "uuid-1").2) :=
  ⟨rfl, getSessionId_idempotent (fun _ => none) "uuid-1" "uuid-2" rfl⟩

/-- C9: the admin variant label is "Available" iff the computed
actually_available field is true; when it is false the label is
"Out of Stock" exactly when inventory is variant-tracked with
stock_quantity at most 0, else "Disabled"; the manual available flag
never influences the result. -/
theorem variant_status_display (v : ProductVariant) (lvl : String) :
    ((getVariantStatus v lvl).label = "Available" ↔ v.actually_available = true) ∧
    (v.actually_available = false →
      (getVariantStatus v lvl).label =
        if lvl = "variant" ∧ v.stock_quantity ≤ 0 then "Out of Stock"
        else "Disabled") ∧
    (∀ b : Bool, getVariantStatus { v with available := b } lvl =
      getVariantStatus v lvl) := by
  refine ⟨?_, ?_, fun b => rfl⟩
  · cases hv : v.actually_available with
    | true => simp [getVariantStatus, hv]
    | false =>
        simp only [getVariantStatus, hv, Bool.not_false, if_true]
        split <;> simp
  · intro hv
    simp only [getVariantStatus, hv, Bool.not_false, if_true]
    split <;> rfl

def sampleVariant : ProductVariant :=
  { id := 1, size := "M", color := "Red", variant_name := "M / Red",
    display_name := "M / Red", sku := "SKU-1", price_cents := 1999,
    stock_quantity := 0, available := true, actually_available := false,
    low_stock := false }

/-- Witness for C9 at a concrete variant: manually enabled but with zero
stock under variant-level tracking, it displays "Out of Stock". -/
theorem variant_status_display_witness :
    (getVariantStatus sampleVariant "variant").label = "Out of Stock" := by
  have h := (variant_status_display sampleVariant "variant").2.1 rfl
  rw [h]
  decide

end Hafaloha
